import Mathlib

/-!
Shallow embedding of the HypeAPI client (src/hypebankapi/banking.py and
src/hypebankapi/hype.py).  Network I/O is modelled by passing the backend's
HTTP responses as explicit inputs; each operation returns the mutated client
state, the list of network requests it issued, and either a value or the
Python exception it raised.
-/

namespace HypeAPI

/-- A parsed JSON value, as produced by `response.json()`. -/
inductive Json where
  | null : Json
  | str : String → Json
  | num : Int → Json
  | arr : List Json → Json
  | obj : List (String × Json) → Json
deriving Repr

/-- Python `d[k]` on a parsed JSON object: `some` the first binding of `k`,
`none` when the value is not an object or the key is absent (KeyError). -/
def Json.lookup : Json → String → Option Json
  | .obj fields, k => fields.lookup k
  | _, _ => none

/-- Python `==` between a parsed JSON value and a string literal: true exactly
when the value is that string (a non-string JSON value never equals a `str`). -/
def Json.eqStr : Json → String → Bool
  | .str s, t => s = t
  | _, _ => false

/-- Python `str()` applied to a JSON value, as used when the client
interpolates response fields into exception messages and form data.
Container renderings are abbreviated; the client only ever interpolates
strings and numbers. -/
def pyStr : Json → String
  | .null => "None"
  | .str s => s
  | .num n => toString n
  | .arr _ => "<list>"
  | .obj _ => "<dict>"

/-- One backend HTTP reply: the raw text, its parse outcome (`none` models a
`json.decoder.JSONDecodeError` from `response.json()`), and the `Set-Cookie`
pairs the reply carries into the session's cookie jar. -/
structure HttpResponse where
  text : String
  body : Option Json
  cookies : List (String × String)
deriving Repr

/-- Store a cookie in a jar: replace an existing binding of the same name,
otherwise append (one binding per name, as in `RequestsCookieJar.get_dict`). -/
def setCookie (jar : List (String × String)) (kv : String × String) :
    List (String × String) :=
  if jar.any (fun p => p.1 = kv.1) then
    jar.map (fun p => if p.1 = kv.1 then kv else p)
  else jar ++ [kv]

/-- Merge a response's cookies into the jar, left to right. -/
def mergeCookies (jar newc : List (String × String)) : List (String × String) :=
  newc.foldl setCookie jar

/-- A `requests.Session`: Transport Session of the spec.  `sid` models object
identity — constructing a new `requests.Session()` yields a fresh `sid`, so
two distinct session objects never share it. -/
structure Session where
  sid : Nat
  headers : List (String × String)
  cookies : List (String × String)
deriving Repr, DecidableEq

/-- Absorb a response's cookies into the session's jar, as `requests` does on
every exchange performed through the session. -/
def Session.absorb (s : Session) (r : HttpResponse) : Session :=
  { s with cookies := mergeCookies s.cookies r.cookies }

/-- The mutable fields of a `Hype` client instance (`Hype.__init__` plus
`Banking.__init__`).  `token`/`newids` come from cookies and are strings;
`bin`/`checksum` are stored JSON values straight from response bodies. -/
structure HypeState where
  username : Option String
  newids : Option String
  bin : Option Json
  checksum : Option Json
  token : Option String
  session : Session
deriving Repr

/-- The Python exceptions the client can raise: the three `Banking` exception
classes, `ValueError` from birthdate validation, the bare `Exception` guard in
`otp2fa`, and an uncaught `KeyError` escaping a dict/cookie-jar lookup. -/
inductive PyError where
  | AuthenticationError : String → PyError
  | AuthenticationFailure : PyError
  | RequestException : String → PyError
  | ValueError : String → PyError
  | PlainException : String → PyError
  | KeyError : String → PyError
deriving Repr, DecidableEq

/-- One outgoing HTTP request: target URL and the form-data dict (a `none`
value is a Python `None` passed for that field; GETs carry no form data). -/
structure Request where
  url : String
  formData : List (String × Option String)
deriving Repr

/-- Result of running one client operation: the client state afterwards, the
network requests issued (in order), and the returned value or raised error. -/
structure Outcome (α : Type) where
  st : HypeState
  reqs : List Request
  res : Except PyError α
deriving Repr

/-- `Hype.ENROLL_URL`. -/
def ENROLL_URL : String := "https://api.hype.it/v2/auth/hypeconnector.aspx"

/-- `Hype.PROFILE_URL`. -/
def PROFILE_URL : String := "https://api.hype.it/v1/rest/u/profile"

/-- `Hype.BALANCE_URL`. -/
def BALANCE_URL : String := "https://api.hype.it/v1/rest/u/balance"

/-- `Hype.CARD_URL`. -/
def CARD_URL : String := "https://api.hype.it/v1/rest/your/card"

/-- `Hype.MOVEMENTS_URL.format(limit)`. -/
def MOVEMENTS_URL (limit : Int) : String :=
  "https://api.hype.it/v1/rest/m/last/" ++ toString limit

/-- `Hype.APP_VERSION`. -/
def APP_VERSION : String := "5.1.6"

/-- `Hype.DEVICE_ID` is `str(uuid4()).replace("-","") + "hype"`, a random
identifier fixed at class-load time; modelled as an arbitrary fixed string. -/
def DEVICE_ID : String := "00000000000000000000000000000000hype"

/-- `Hype.DEVICE_INFO`: `json.dumps` of the fixed device descriptor. -/
def DEVICE_INFO : String :=
  "\x7b\"jailbreak\": \"false\", \"osversion\": \"13.3.1\", \"model\": \"iPhone11,2\"\x7d"

/-- `Banking._api_request`: absorb the reply's cookies, parse the body, demand
`responseCode`, raise `AuthenticationFailure` on `"401"`/`"007"`, raise
`RequestException` with the code and description on any other non-`"200"`
code (an uncaught `KeyError` when `responseDescr` is absent, since
`str.format(**data)` needs it), and return `data["data"]` on `"200"` (an
uncaught `KeyError` when the `data` key is absent). -/
def api_request (st : HypeState) (url : String) (resp : HttpResponse) :
    Outcome Json :=
  let st1 := { st with session := st.session.absorb resp }
  let req : Request := ⟨url, []⟩
  match resp.body with
  | none =>
      ⟨st1, [req], .error (.RequestException ("Failed to parse response: " ++ resp.text))⟩
  | some data =>
    match data.lookup "responseCode" with
    | none =>
        ⟨st1, [req], .error (.RequestException
          ("Missing response code from response: " ++ resp.text))⟩
    | some rc =>
      if rc.eqStr "401" || rc.eqStr "007" then
        ⟨st1, [req], .error .AuthenticationFailure⟩
      else if rc.eqStr "200" then
        match data.lookup "data" with
        | none => ⟨st1, [req], .error (.KeyError "data")⟩
        | some d => ⟨st1, [req], .ok d⟩
      else
        match data.lookup "responseDescr" with
        | none => ⟨st1, [req], .error (.KeyError "responseDescr")⟩
        | some descr =>
            ⟨st1, [req], .error (.RequestException
              ("Server returned response " ++ pyStr rc ++ ": " ++ pyStr descr))⟩

/-- Modelled from the spec: the `loginrequired` decorator is defined in
`src/hypebankapi/utils.py`, which is absent from the sources (only its import
sites exist).  Per spec §4.3 and the `Banking` docstrings, it fails with an
authentication error, without issuing any network call, when the client is
not authenticated; token presence is the client's only marker of that. -/
def loginrequired_passes (st : HypeState) : Bool := st.token.isSome

/-- The guard failure produced by the modelled `loginrequired` decorator. -/
def notLoggedIn (st : HypeState) : Outcome Json :=
  ⟨st, [], .error (.AuthenticationError "login required")⟩

/-- `Hype.get_profile`: `loginrequired` guard, then a GET via `_api_request`. -/
def get_profile (st : HypeState) (resp : HttpResponse) : Outcome Json :=
  if loginrequired_passes st then api_request st PROFILE_URL resp else notLoggedIn st

/-- `Hype.get_balance`: `loginrequired` guard, then a GET via `_api_request`. -/
def get_balance (st : HypeState) (resp : HttpResponse) : Outcome Json :=
  if loginrequired_passes st then api_request st BALANCE_URL resp else notLoggedIn st

/-- `Hype.get_card`: `loginrequired` guard, then a GET via `_api_request`. -/
def get_card (st : HypeState) (resp : HttpResponse) : Outcome Json :=
  if loginrequired_passes st then api_request st CARD_URL resp else notLoggedIn st

/-- `Hype.get_movements(limit=5)`: `loginrequired` guard, then a GET against
`MOVEMENTS_URL.format(limit)`; `limit = none` models omitting the argument,
which takes the declared default `5`.  The body performs no validation of
`limit`. -/
def get_movements (st : HypeState) (limit : Option Int) (resp : HttpResponse) :
    Outcome Json :=
  if loginrequired_passes st then
    api_request st (MOVEMENTS_URL (limit.getD 5)) resp
  else notLoggedIn st

/-- A `datetime.date` (or `datetime.datetime`, whose time part `%d/%m/%Y`
ignores) value. -/
structure PyDate where
  year : Nat
  month : Nat
  day : Nat
deriving Repr, DecidableEq

/-- Left-pad a numeral with zeros to the given width, as `strftime` does. -/
def zpad (width n : Nat) : String :=
  let s := toString n
  String.mk (List.replicate (width - s.length) '0') ++ s

/-- `d.strftime("%d/%m/%Y")`: zero-padded day and month, zero-padded
four-digit year. -/
def strftimeDMY (d : PyDate) : String :=
  zpad 2 d.day ++ "/" ++ zpad 2 d.month ++ "/" ++ zpad 4 d.year

/-- Day count of a month, as the Gregorian calendar used by `datetime`. -/
def daysInMonth (y m : Nat) : Nat :=
  if m = 2 then
    if y % 4 = 0 ∧ (y % 100 ≠ 0 ∨ y % 400 = 0) then 29 else 28
  else if m = 4 ∨ m = 6 ∨ m = 9 ∨ m = 11 then 30
  else 31

/-- Numeric value of a decimal digit character. -/
def digitVal (c : Char) : Nat := c.toNat - 48

/-- One concrete ISO-date parser, used only to instantiate the abstract
`fromisoformat` parameter of `login` in witnesses: it accepts exactly
`YYYY-MM-DD` with in-range month and day.  On the witness inputs below every
CPython version's `datetime.fromisoformat` agrees with it: `"1990-02-03"`
parses to 3 February 1990, and `"nonsense"` raises `ValueError`. -/
def isoDateOnly (s : String) : Option PyDate :=
  match s.toList with
  | [y1, y2, y3, y4, '-', m1, m2, '-', d1, d2] =>
    if y1.isDigit && y2.isDigit && y3.isDigit && y4.isDigit &&
        m1.isDigit && m2.isDigit && d1.isDigit && d2.isDigit then
      let y := ((digitVal y1 * 10 + digitVal y2) * 10 + digitVal y3) * 10 + digitVal y4
      let m := digitVal m1 * 10 + digitVal m2
      let d := digitVal d1 * 10 + digitVal d2
      if 1 ≤ m ∧ m ≤ 12 ∧ 1 ≤ d ∧ d ≤ daysInMonth y m then some ⟨y, m, d⟩
      else none
    else none
  | _ => none

/-- The `birthdate` argument of `Hype.login`: a `date`/`datetime` instance, a
string, `None`, or a value of any other type (e.g. an `int`). -/
inductive BirthdateArg where
  | dateVal : PyDate → BirthdateArg
  | strVal : String → BirthdateArg
  | noneVal : BirthdateArg
  | intVal : Int → BirthdateArg
deriving Repr, DecidableEq

/-- The birthdate-normalisation prefix of `Hype.login`: `dob` as an optional
string, or the `ValueError` the prefix raises.  `datetime.fromisoformat`
belongs to the Python standard library, not this repository, and the grammar
it accepts varies by interpreter version; the embedding therefore abstracts
it as the function parameter `fromisoformat`, where `some d` models a
successful parse whose calendar date is `d` (any time-of-day suffix is
discarded by the subsequent `strftime("%d/%m/%Y")`) and `none` models the
stdlib raising `ValueError`. -/
def loginDob (fromisoformat : String → Option PyDate) :
    BirthdateArg → Except PyError (Option String)
  | .dateVal d => .ok (some (strftimeDMY d))
  | .strVal s =>
    match fromisoformat s with
    | some d => .ok (some (strftimeDMY d))
    | none => .error (.ValueError ("Invalid isoformat string: " ++ s))
  | .noneVal => .ok none
  | .intVal _ => .error (.ValueError "Invalid birth date")

/-- The form data of the first-factor POST (`FREE/LOGINFIRSTSTEP.SPR`). -/
def loginReq1 (username password : String) (dob : Option String) : Request :=
  ⟨ENROLL_URL,
    [("additionalinfo", some DEVICE_INFO),
     ("codiceinternet", some username),
     ("datanascita", dob),
     ("deviceid", some DEVICE_ID),
     ("function", some "FREE/LOGINFIRSTSTEP.SPR"),
     ("pin", some password),
     ("platform", some "IPHONE")]⟩

/-- The form data of a device-enrollment POST (`INFO/ENROLLBIO.SPR`), shared
by `login` and `renew`. -/
def enrollBioReq : Request :=
  ⟨ENROLL_URL,
    [("additionalinfo", some DEVICE_INFO),
     ("deviceid", some DEVICE_ID),
     ("function", some "INFO/ENROLLBIO.SPR"),
     ("platform", some "IPHONE")]⟩

/-- The shared tail of `login` and `renew` that interprets a device-enrollment
reply: `RequestException` on a parse failure, `AuthenticationError` when
`ErrorMessage` is absent or non-empty, otherwise hands the parsed body on. -/
def enrollBioCheck (resp : HttpResponse) : Except PyError Json :=
  match resp.body with
  | none => .error (.RequestException "Failed to parse response for bioToken request")
  | some j =>
    match j.lookup "ErrorMessage" with
    | none => .error (.AuthenticationError "Missing data in response for bioToken request")
    | some em =>
      if em.eqStr "" then .ok j
      else .error (.AuthenticationError ("Server returned error: " ++ pyStr em))

/-- `Hype.login(username, password, birthdate)`: normalise the birthdate (the
`ValueError` paths issue no request), POST the first factor and require
`Check == "OK"` (`AuthenticationError` on a parse failure, a missing key, or a
rejection), POST device enrollment and run `enrollBioCheck`, then store
`bin = enroll2.json()["Bin"]` (an uncaught `KeyError` when absent) and the
supplied username.  `resp1`/`resp2` are the backend's replies to the two
POSTs, and `fromisoformat` abstracts the stdlib ISO parser as in
`loginDob`. -/
def login (fromisoformat : String → Option PyDate) (st : HypeState)
    (username password : String) (birthdate : BirthdateArg)
    (resp1 resp2 : HttpResponse) : Outcome Unit :=
  match loginDob fromisoformat birthdate with
  | .error e => ⟨st, [], .error e⟩
  | .ok dob =>
    let req1 := loginReq1 username password dob
    let st1 := { st with session := st.session.absorb resp1 }
    match resp1.body with
    | none =>
        ⟨st1, [req1], .error (.AuthenticationError "Failed to parse response for login request")⟩
    | some j1 =>
      match j1.lookup "Check" with
      | none => ⟨st1, [req1], .error (.AuthenticationError "Login failed")⟩
      | some c =>
        if c.eqStr "OK" then
          let st2 := { st1 with session := st1.session.absorb resp2 }
          match enrollBioCheck resp2 with
          | .error e => ⟨st2, [req1, enrollBioReq], .error e⟩
          | .ok j2 =>
            match j2.lookup "Bin" with
            | none => ⟨st2, [req1, enrollBioReq], .error (.KeyError "Bin")⟩
            | some b =>
                ⟨{ st2 with bin := some b, username := some username },
                  [req1, enrollBioReq], .ok ()⟩
        else ⟨st1, [req1], .error (.AuthenticationError "Login failed")⟩

/-- The form data of the second-factor POST (`FREE/LOGINSECONDSTEP.SPR`). -/
def otpReq (username : String) (code : Int) : Request :=
  ⟨ENROLL_URL,
    [("additionalinfo", some DEVICE_INFO),
     ("codiceinternet", some username),
     ("deviceid", some DEVICE_ID),
     ("function", some "FREE/LOGINSECONDSTEP.SPR"),
     ("pwd", some (toString code)),
     ("platform", some "IPHONE")]⟩

/-- A freshly constructed `requests.Session()` carrying the post-handshake
fixed headers `hype_token`/`newids`/`App-Version` and an empty cookie jar; its
`sid` differs from the session it replaces. -/
def freshHeaderSession (old : Session) (token newids : String) : Session :=
  ⟨old.sid + 1,
   [("hype_token", token), ("newids", newids), ("App-Version", APP_VERSION)],
   []⟩

/-- `Hype.otp2fa(code)`: guard `if self._username is None` with a bare
`Exception` (no request issued); POST the second factor and require
`Check == "OK"`; store `checksum = otp.json()["Checksum"]` (uncaught
`KeyError` when absent), then `token` and `newids` from the session's cookie
jar (uncaught `KeyError` when either cookie is absent, with the earlier
assignments already performed); finally replace the session wholesale with a
fresh header-based one. -/
def otp2fa (st : HypeState) (code : Int) (resp : HttpResponse) : Outcome Unit :=
  match st.username with
  | none => ⟨st, [], .error (.PlainException "Please login() before verifying OTP code")⟩
  | some u =>
    let req := otpReq u code
    let st1 := { st with session := st.session.absorb resp }
    match resp.body with
    | none =>
        ⟨st1, [req], .error (.RequestException
          "Failed to parse response for OTP verification request")⟩
    | some j =>
      match j.lookup "Check" with
      | none =>
          ⟨st1, [req], .error (.AuthenticationError
            "OTP verification failed. Please login() again")⟩
      | some c =>
        if c.eqStr "OK" then
          match j.lookup "Checksum" with
          | none => ⟨st1, [req], .error (.KeyError "Checksum")⟩
          | some ck =>
            let st2 := { st1 with checksum := some ck }
            match st2.session.cookies.lookup "token" with
            | none => ⟨st2, [req], .error (.KeyError "token")⟩
            | some t =>
              let st3 := { st2 with token := some t }
              match st3.session.cookies.lookup "newids" with
              | none => ⟨st3, [req], .error (.KeyError "newids")⟩
              | some nid =>
                  ⟨{ st3 with
                      newids := some nid
                      session := freshHeaderSession st.session t nid },
                    [req], .ok ()⟩
        else
          ⟨st1, [req], .error (.AuthenticationError
            "OTP verification failed. Please login() again")⟩

/-- The form data of the renewal POST (`FREE/LOGINFIRSTSTEPFA.SPR`), carrying
the stored `bin` and `checksum` in place of credentials. -/
def renewReq (st : HypeState) : Request :=
  ⟨ENROLL_URL,
    [("additionalinfo", some DEVICE_INFO),
     ("bin", st.bin.map pyStr),
     ("checksum", st.checksum.map pyStr),
     ("deviceid", some DEVICE_ID),
     ("function", some "FREE/LOGINFIRSTSTEPFA.SPR"),
     ("platform", some "IPHONE")]⟩

/-- `Hype.renew()`: the modelled `loginrequired` guard, then the renewal POST
requiring `Check == "OK"` (`AuthenticationError` on parse failure, missing
key, or rejection), then a re-enrollment POST run through `enrollBioCheck`;
on success reads `token`/`newids` from the cookie jar (uncaught `KeyError`
when absent), replaces the session with a fresh header-based one, and stores
`bin = reenroll.json()["Bin"]` (uncaught `KeyError` when absent, with
`token`/`newids`/session already replaced).  `checksum` is never written. -/
def renew (st : HypeState) (resp1 resp2 : HttpResponse) : Outcome Unit :=
  if loginrequired_passes st then
    let req1 := renewReq st
    let st1 := { st with session := st.session.absorb resp1 }
    match resp1.body with
    | none =>
        ⟨st1, [req1], .error (.AuthenticationError
          "Failed to parse response for renewal request")⟩
    | some j1 =>
      match j1.lookup "Check" with
      | none => ⟨st1, [req1], .error (.AuthenticationError "Renewal failed")⟩
      | some c =>
        if c.eqStr "OK" then
          let st2 := { st1 with session := st1.session.absorb resp2 }
          match enrollBioCheck resp2 with
          | .error e => ⟨st2, [req1, enrollBioReq], .error e⟩
          | .ok j2 =>
            match st2.session.cookies.lookup "token" with
            | none => ⟨st2, [req1, enrollBioReq], .error (.KeyError "token")⟩
            | some t =>
              let st3 := { st2 with token := some t }
              match st3.session.cookies.lookup "newids" with
              | none => ⟨st3, [req1, enrollBioReq], .error (.KeyError "newids")⟩
              | some nid =>
                let st4 := { st3 with
                  newids := some nid
                  session := freshHeaderSession st2.session t nid }
                match j2.lookup "Bin" with
                | none => ⟨st4, [req1, enrollBioReq], .error (.KeyError "Bin")⟩
                | some b =>
                    ⟨{ st4 with bin := some b }, [req1, enrollBioReq], .ok ()⟩
        else ⟨st1, [req1], .error (.AuthenticationError "Renewal failed")⟩
  else ⟨st, [], .error (.AuthenticationError "login required")⟩

/-- The abstract AuthState of spec §3, read off the concrete client fields:
no stored identifier is `Unauthenticated`; an identifier without a session
token is `PendingOtp`; identifier plus token is `Authenticated`.  No client
field ever records the spec's `Expired` state: expiry exists in the code only
as the `AuthenticationFailure` exception observed by the caller. -/
inductive AuthState where
  | Unauthenticated : AuthState
  | PendingOtp : AuthState
  | Authenticated : AuthState
  | Expired : AuthState
deriving Repr, DecidableEq

/-- Derive the spec-level AuthState from a concrete client state. -/
def authStateOf (st : HypeState) : AuthState :=
  match st.username, st.token with
  | none, _ => .Unauthenticated
  | some _, none => .PendingOtp
  | some _, some _ => .Authenticated

/-- The four Facade data calls, run against one state and one backend reply
(`lim` feeds `get_movements` only). -/
def dataCalls (st : HypeState) (lim : Option Int) (resp : HttpResponse) :
    List (Outcome Json) :=
  [get_profile st resp, get_balance st resp, get_card st resp,
   get_movements st lim resp]

/-! Concrete fixtures used by counterexamples and witnesses. -/

/-- A fresh client, as `Hype()` constructs it. -/
def stInit : HypeState := ⟨none, none, none, none, none, ⟨0, [], []⟩⟩

/-- A client mid-handshake, as after a successful `login` (PendingOtp). -/
def stPend : HypeState :=
  ⟨some "user", none, some (.str "BIN0"), none, none, ⟨0, [], []⟩⟩

/-- A fully authenticated client, as after a successful `otp2fa` installed
secrets `T0`/`R0`/`CK0` and the header-based session. -/
def stAuth : HypeState :=
  ⟨some "user", some "R0", some (.str "BIN0"), some (.str "CK0"), some "T0",
   ⟨1, [("hype_token", "T0"), ("newids", "R0"), ("App-Version", APP_VERSION)], []⟩⟩

/-- A data-call reply whose envelope signals an expired session. -/
def r401 : HttpResponse :=
  ⟨"r401", some (.obj [("responseCode", .str "401"),
    ("responseDescr", .str "Unauthorized")]), []⟩

/-- A successful data-call reply carrying payload `"D"`. -/
def r200 : HttpResponse :=
  ⟨"r200", some (.obj [("responseCode", .str "200"), ("data", .str "D")]), []⟩

/-- A first-factor reply passing the `Check == "OK"` test. -/
def rCheckOK : HttpResponse := ⟨"rCheckOK", some (.obj [("Check", .str "OK")]), []⟩

/-- An unparseable reply: `response.json()` raises `JSONDecodeError`. -/
def rUnparseable : HttpResponse := ⟨"<html>", none, []⟩

/-- A device-enrollment reply with an empty error and a fresh `Bin`. -/
def rEnrollOK : HttpResponse :=
  ⟨"rEnrollOK", some (.obj [("ErrorMessage", .str ""), ("Bin", .str "BIN1")]), []⟩

/-- A successful second-factor reply with both handshake cookies. -/
def rOtpOK : HttpResponse :=
  ⟨"rOtpOK", some (.obj [("Check", .str "OK"), ("Checksum", .str "C")]),
   [("token", "T"), ("newids", "R")]⟩

/-- A second-factor reply that succeeds but omits the `token` cookie. -/
def rOtpNoToken : HttpResponse :=
  ⟨"rOtpNoToken", some (.obj [("Check", .str "OK"), ("Checksum", .str "C")]),
   [("newids", "R")]⟩

/-- A second-factor reply that succeeds but omits the `newids` cookie. -/
def rOtpNoNewids : HttpResponse :=
  ⟨"rOtpNoNewids", some (.obj [("Check", .str "OK"), ("Checksum", .str "C")]),
   [("token", "T")]⟩

/-- A data-call reply with a generic backend failure code. -/
def rBackendErr : HttpResponse :=
  ⟨"rBackendErr", some (.obj [("responseCode", .str "094"),
    ("responseDescr", .str "Generic failure")]), []⟩

/-- A renewal first-step reply: `Check` passes and fresh cookies arrive. -/
def rRenew1 : HttpResponse :=
  ⟨"rRenew1", some (.obj [("Check", .str "OK")]),
   [("token", "T1"), ("newids", "R1")]⟩

/-! Helper lemmas. -/

/-- `_api_request` on an envelope whose code is `"401"` or `"007"`: exactly
one request, `AuthenticationFailure`, and the only state change is the jar
absorbing the reply's cookies. -/
theorem api_request_expired (st : HypeState) (url : String) (resp : HttpResponse)
    (j : Json) (hb : resp.body = some j)
    (hc : j.lookup "responseCode" = some (.str "401") ∨
          j.lookup "responseCode" = some (.str "007")) :
    api_request st url resp =
      ⟨{ st with session := st.session.absorb resp }, [⟨url, []⟩],
        .error .AuthenticationFailure⟩ := by
  rcases hc with hc | hc <;> simp [api_request, hb, hc, Json.eqStr]

/-- `_api_request` always issues exactly the one GET it was asked for,
whatever the reply. -/
theorem api_request_reqs (st : HypeState) (url : String) (resp : HttpResponse) :
    (api_request st url resp).reqs = [⟨url, []⟩] := by
  unfold api_request
  repeat (first | rfl | split)

/-- `authStateOf` ignores every field except `username` and `token`. -/
theorem authStateOf_session_update (st : HypeState) (s : Session) :
    authStateOf { st with session := s } = authStateOf st := rfl

/-- Claim C1, amended.  A data call (profile, balance, card, movements) on an
authenticated client whose reply's envelope code is `"401"` or `"007"` fails
with `AuthenticationFailure` (the `SessionExpired` signal) after exactly one
network request — no further request is issued; however no state transition
occurs: the code has no `markExpired`, every client field except the session
cookie jar is unchanged, and the derived AuthState stays `Authenticated`
rather than becoming `Expired`. -/
theorem C1_expiry_signal (st : HypeState) (resp : HttpResponse) (lim : Option Int)
    (tok : String) (j : Json)
    (htok : st.token = some tok) (hb : resp.body = some j)
    (hc : j.lookup "responseCode" = some (.str "401") ∨
          j.lookup "responseCode" = some (.str "007")) :
    ∀ out ∈ dataCalls st lim resp,
      out.res = .error .AuthenticationFailure ∧
      out.reqs.length = 1 ∧
      out.st.username = st.username ∧ out.st.token = st.token ∧
      out.st.bin = st.bin ∧ out.st.checksum = st.checksum ∧
      out.st.newids = st.newids ∧
      authStateOf out.st = authStateOf st := by
  have hpass : loginrequired_passes st = true := by
    simp [loginrequired_passes, htok]
  intro out hout
  simp only [dataCalls, List.mem_cons, List.not_mem_nil, or_false] at hout
  rcases hout with h | h | h | h <;> subst h <;>
    simp [get_profile, get_balance, get_card, get_movements, hpass,
      api_request_expired st _ resp j hb hc, authStateOf_session_update]

/-- Witness for C1 at the authenticated fixture and a `"401"` reply. -/
theorem C1_expiry_signal_witness :
    (get_profile stAuth r401).res = .error .AuthenticationFailure ∧
    (get_profile stAuth r401).reqs.length = 1 ∧
    authStateOf (get_profile stAuth r401).st = authStateOf stAuth ∧
    (get_balance stAuth r401).res = .error .AuthenticationFailure ∧
    (get_card stAuth r401).res = .error .AuthenticationFailure ∧
    (get_movements stAuth (some 50) r401).res = .error .AuthenticationFailure := by
  have h := C1_expiry_signal stAuth r401 (some 50) "T0"
    (.obj [("responseCode", .str "401"), ("responseDescr", .str "Unauthorized")])
    rfl rfl (Or.inl rfl)
  exact ⟨(h _ (by simp [dataCalls])).1, (h _ (by simp [dataCalls])).2.1,
    (h _ (by simp [dataCalls])).2.2.2.2.2.2.2,
    (h _ (by simp [dataCalls])).1, (h _ (by simp [dataCalls])).1,
    (h _ (by simp [dataCalls])).1⟩

/-- Claim C1, counterexample to the claim as stated: a `"401"` reply to
`get_profile` on the authenticated fixture raises `AuthenticationFailure`,
yet the client state afterwards is identical to the state before — nothing
transitions to `Expired` and no `markExpired` runs; the derived AuthState
still reads `Authenticated`. -/
theorem C1_no_expired_transition :
    (get_profile stAuth r401).res = .error .AuthenticationFailure ∧
    (get_profile stAuth r401).st = stAuth ∧
    authStateOf (get_profile stAuth r401).st = .Authenticated := ⟨rfl, rfl, rfl⟩

/-- Claim C4, amended.  `otp2fa`'s guard checks only that a login stored an
identifier: with `username = None` (the `Unauthenticated` state) it fails
with a bare `Exception` and issues zero network calls, leaving the state
untouched.  (It does not require `PendingOtp` specifically — see the
counterexample.) -/
theorem C4_otp_guard (st : HypeState) (code : Int) (resp : HttpResponse)
    (h : st.username = none) :
    otp2fa st code resp =
      ⟨st, [], .error (.PlainException "Please login() before verifying OTP code")⟩ := by
  simp [otp2fa, h]

/-- Witness for C4 at the fresh-client fixture. -/
theorem C4_otp_guard_witness :
    otp2fa stInit 123456 rOtpOK =
      ⟨stInit, [], .error (.PlainException "Please login() before verifying OTP code")⟩ :=
  C4_otp_guard stInit 123456 rOtpOK rfl

/-- Claim C4, counterexample to the claim as stated: on the authenticated
fixture — a state other than `PendingOtp` — `otp2fa` does not fail with an
illegal-state error and zero network calls; it proceeds and issues the
second-factor POST. -/
theorem C4_runs_when_authenticated :
    authStateOf stAuth = .Authenticated ∧
    (otp2fa stAuth 123456 rOtpOK).reqs = [otpReq "user" 123456] := ⟨rfl, rfl⟩

/-- Claim C8, amended.  `get_movements` performs no validation of `limit`:
on an authenticated client any integer limit — non-positive included — is
formatted into the movements URL and the request is issued, and an omitted
limit silently takes the declared default `5`; no `InvalidArgument`-style
error exists on this path. -/
theorem C8_no_limit_validation (st : HypeState) (lim : Int) (resp : HttpResponse)
    (tok : String) (htok : st.token = some tok) :
    (get_movements st (some lim) resp).reqs = [⟨MOVEMENTS_URL lim, []⟩] ∧
    (get_movements st none resp).reqs = [⟨MOVEMENTS_URL 5, []⟩] := by
  have hpass : loginrequired_passes st = true := by
    simp [loginrequired_passes, htok]
  constructor <;> simp [get_movements, hpass, api_request_reqs]

/-- Witness for C8 at the authenticated fixture. -/
theorem C8_no_limit_validation_witness :
    (get_movements stAuth (some (-3)) r200).reqs = [⟨MOVEMENTS_URL (-3), []⟩] ∧
    (get_movements stAuth none r200).reqs = [⟨MOVEMENTS_URL 5, []⟩] :=
  C8_no_limit_validation stAuth (-3) r200 "T0" rfl

/-- Claim C8, counterexample to the claim as stated: `get_movements` with the
non-positive limit `-3` issues a network request whose URL ends in `-3` and,
on a `"200"` reply, returns its payload — it does not fail with an
invalid-argument error; called with the limit omitted it requests the
default-`5` URL instead of failing. -/
theorem C8_negative_limit_accepted :
    (get_movements stAuth (some (-3)) r200).reqs =
      [⟨"https://api.hype.it/v1/rest/m/last/-3", []⟩] ∧
    (get_movements stAuth (some (-3)) r200).res = .ok (.str "D") ∧
    (get_movements stAuth none r200).reqs =
      [⟨"https://api.hype.it/v1/rest/m/last/5", []⟩] := ⟨rfl, rfl, rfl⟩

/-- Claim C2, amended.  A successful `renew` replaces `token` and `routingId`
(`newids`) with the values freshly read from the post-renewal cookie jar,
replaces the EnrollmentTicket `bin` with the one from the re-enrollment
reply, and installs a brand-new header-based Transport Session; the
`checksum` field, however, is not rotated — it keeps its pre-renewal value
(only `otp2fa` ever writes it). -/
theorem C2_renew_rotation (st : HypeState) (r1 r2 : HttpResponse)
    (tok : String) (j1 j2 b : Json) (t nid : String)
    (htok : st.token = some tok)
    (hb1 : r1.body = some j1)
    (hchk : j1.lookup "Check" = some (.str "OK"))
    (hbio : enrollBioCheck r2 = .ok j2)
    (hct : (mergeCookies (mergeCookies st.session.cookies r1.cookies)
      r2.cookies).lookup "token" = some t)
    (hcn : (mergeCookies (mergeCookies st.session.cookies r1.cookies)
      r2.cookies).lookup "newids" = some nid)
    (hbin : j2.lookup "Bin" = some b) :
    (renew st r1 r2).res = .ok () ∧
    (renew st r1 r2).st.token = some t ∧
    (renew st r1 r2).st.newids = some nid ∧
    (renew st r1 r2).st.bin = some b ∧
    (renew st r1 r2).st.checksum = st.checksum ∧
    (renew st r1 r2).st.session.headers =
      [("hype_token", t), ("newids", nid), ("App-Version", APP_VERSION)] ∧
    (renew st r1 r2).st.session.cookies = [] ∧
    (renew st r1 r2).st.session ≠ st.session := by
  have hpass : loginrequired_passes st = true := by
    simp [loginrequired_passes, htok]
  have hmain : renew st r1 r2 =
      ⟨{ st with
          token := some t
          newids := some nid
          bin := some b
          session := ⟨st.session.sid + 1,
            [("hype_token", t), ("newids", nid), ("App-Version", APP_VERSION)], []⟩ },
        [renewReq st, enrollBioReq], .ok ()⟩ := by
    simp [renew, hpass, hb1, hchk, hbio, Session.absorb, hct, hcn, hbin,
      Json.eqStr, freshHeaderSession]
  rw [hmain]
  refine ⟨rfl, rfl, rfl, rfl, rfl, rfl, rfl, ?_⟩
  intro h
  have hsid := congrArg Session.sid h
  simp at hsid

/-- Witness for C2 at the authenticated fixture and a renewal delivering
fresh cookies `T1`/`R1` and ticket `BIN1`. -/
theorem C2_renew_rotation_witness :
    (renew stAuth rRenew1 rEnrollOK).res = .ok () ∧
    (renew stAuth rRenew1 rEnrollOK).st.token = some "T1" ∧
    (renew stAuth rRenew1 rEnrollOK).st.newids = some "R1" ∧
    (renew stAuth rRenew1 rEnrollOK).st.bin = some (.str "BIN1") ∧
    (renew stAuth rRenew1 rEnrollOK).st.checksum = stAuth.checksum ∧
    (renew stAuth rRenew1 rEnrollOK).st.session.headers =
      [("hype_token", "T1"), ("newids", "R1"), ("App-Version", APP_VERSION)] ∧
    (renew stAuth rRenew1 rEnrollOK).st.session.cookies = [] ∧
    (renew stAuth rRenew1 rEnrollOK).st.session ≠ stAuth.session :=
  C2_renew_rotation stAuth rRenew1 rEnrollOK "T0" (.obj [("Check", .str "OK")])
    (.obj [("ErrorMessage", .str ""), ("Bin", .str "BIN1")]) (.str "BIN1") "T1" "R1"
    rfl rfl rfl rfl rfl rfl rfl

/-- Claim C2, counterexample to the claim as stated: a fully successful
`renew` from the authenticated fixture — which installs the fresh `T1`/`R1`
secrets and ticket `BIN1` — leaves `checksum` equal to the pre-renewal value
`CK0`: the third SessionSecrets field is neither replaced nor distinct from
the pre-expiry one. -/
theorem C2_checksum_kept :
    (renew stAuth rRenew1 rEnrollOK).res = .ok () ∧
    (renew stAuth rRenew1 rEnrollOK).st.token = some "T1" ∧
    (renew stAuth rRenew1 rEnrollOK).st.newids = some "R1" ∧
    (renew stAuth rRenew1 rEnrollOK).st.checksum = some (.str "CK0") ∧
    stAuth.checksum = some (.str "CK0") := ⟨rfl, rfl, rfl, rfl, rfl⟩

/-- Claim C3, confirmed.  Every shape of the `birthdate` argument to `login`
is handled as specified: a date value is formatted `DD/MM/YYYY` into the
`datanascita` form field of the first-factor request; a string the ISO parser
accepts is parsed and its date formatted the same way; `None` is passed
through unmodified; and a string the ISO parser rejects, or a non-date
non-string value, fails with `ValueError` (`InvalidArgument`) before any
network request is issued.  The statement quantifies over the abstract
`fromisoformat` parameter, so it covers `datetime.fromisoformat` of every
interpreter version: "ISO-parseable" is exactly `fromisoformat s = some d`
and "malformed" exactly `fromisoformat s = none`. -/
theorem C3_birthdate_handling (fromisoformat : String → Option PyDate)
    (st : HypeState) (u p : String)
    (r1 r2 : HttpResponse) (d : PyDate) (sGood sBad : String) (n : Int)
    (hGood : fromisoformat sGood = some d)
    (hBad : fromisoformat sBad = none) :
    ((login fromisoformat st u p (.dateVal d) r1 r2).reqs.head? =
      some (loginReq1 u p
        (some (zpad 2 d.day ++ "/" ++ zpad 2 d.month ++ "/" ++ zpad 4 d.year)))) ∧
    ((login fromisoformat st u p (.strVal sGood) r1 r2).reqs.head? =
      some (loginReq1 u p
        (some (zpad 2 d.day ++ "/" ++ zpad 2 d.month ++ "/" ++ zpad 4 d.year)))) ∧
    ((login fromisoformat st u p .noneVal r1 r2).reqs.head? =
      some (loginReq1 u p none)) ∧
    ((login fromisoformat st u p (.strVal sBad) r1 r2).res =
      .error (.ValueError ("Invalid isoformat string: " ++ sBad)) ∧
     (login fromisoformat st u p (.strVal sBad) r1 r2).reqs = []) ∧
    ((login fromisoformat st u p (.intVal n) r1 r2).res =
      .error (.ValueError "Invalid birth date") ∧
     (login fromisoformat st u p (.intVal n) r1 r2).reqs = []) := by
  refine ⟨?_, ?_, ?_, ⟨?_, ?_⟩, ⟨?_, ?_⟩⟩ <;>
    · unfold login
      simp only [loginDob, hGood, hBad, strftimeDMY]
      repeat (first | rfl | split)

/-- Witness for C3 at a fresh client, instantiating the abstract parser with
`isoDateOnly`, with birthdate 3 February 1990 (as a date value and as the ISO
string `1990-02-03`), the malformed string `nonsense`, and the integer `7` —
inputs on which every CPython version's `datetime.fromisoformat` classifies
exactly as `isoDateOnly` does. -/
theorem C3_birthdate_handling_witness :
    ((login isoDateOnly stInit "u" "p" (.dateVal ⟨1990, 2, 3⟩)
        rCheckOK rEnrollOK).reqs.head? =
      some (loginReq1 "u" "p"
        (some (zpad 2 3 ++ "/" ++ zpad 2 2 ++ "/" ++ zpad 4 1990)))) ∧
    ((login isoDateOnly stInit "u" "p" (.strVal "1990-02-03")
        rCheckOK rEnrollOK).reqs.head? =
      some (loginReq1 "u" "p"
        (some (zpad 2 3 ++ "/" ++ zpad 2 2 ++ "/" ++ zpad 4 1990)))) ∧
    ((login isoDateOnly stInit "u" "p" .noneVal rCheckOK rEnrollOK).reqs.head? =
      some (loginReq1 "u" "p" none)) ∧
    ((login isoDateOnly stInit "u" "p" (.strVal "nonsense") rCheckOK rEnrollOK).res =
      .error (.ValueError ("Invalid isoformat string: " ++ "nonsense")) ∧
     (login isoDateOnly stInit "u" "p" (.strVal "nonsense") rCheckOK rEnrollOK).reqs = []) ∧
    ((login isoDateOnly stInit "u" "p" (.intVal 7) rCheckOK rEnrollOK).res =
      .error (.ValueError "Invalid birth date") ∧
     (login isoDateOnly stInit "u" "p" (.intVal 7) rCheckOK rEnrollOK).reqs = []) :=
  C3_birthdate_handling isoDateOnly stInit "u" "p" rCheckOK rEnrollOK ⟨1990, 2, 3⟩
    "1990-02-03" "nonsense" 7 (by decide) (by decide)

/-- Claim C5, confirmed.  `otp2fa` in `PendingOtp`, on a reply whose body
passes `Check == "OK"` and carries `Checksum` `C`, with cookies `token = T`
and `newids = R` in the jar: the result is success, SessionSecrets are
exactly `{T, R, C}`, the derived state is `Authenticated`, and the Transport
Session is replaced wholesale by a freshly constructed one whose fixed
headers are `hype_token`/`newids`/`App-Version` and whose cookie jar is empty
— the cookie-based handshake session is discarded. -/
theorem C5_second_factor_success (st : HypeState) (u : String) (code : Int)
    (resp : HttpResponse) (j ck : Json) (tk nid : String)
    (hu : st.username = some u)
    (hb : resp.body = some j)
    (hcheck : j.lookup "Check" = some (.str "OK"))
    (hck : j.lookup "Checksum" = some ck)
    (htk : (mergeCookies st.session.cookies resp.cookies).lookup "token" = some tk)
    (hnid : (mergeCookies st.session.cookies resp.cookies).lookup "newids" = some nid) :
    (otp2fa st code resp).res = .ok () ∧
    (otp2fa st code resp).st.token = some tk ∧
    (otp2fa st code resp).st.newids = some nid ∧
    (otp2fa st code resp).st.checksum = some ck ∧
    authStateOf (otp2fa st code resp).st = .Authenticated ∧
    (otp2fa st code resp).st.session.headers =
      [("hype_token", tk), ("newids", nid), ("App-Version", APP_VERSION)] ∧
    (otp2fa st code resp).st.session.cookies = [] ∧
    (otp2fa st code resp).st.session ≠ st.session := by
  have hmain : otp2fa st code resp =
      ⟨{ st with
          username := some u
          token := some tk
          newids := some nid
          checksum := some ck
          session := ⟨st.session.sid + 1,
            [("hype_token", tk), ("newids", nid), ("App-Version", APP_VERSION)], []⟩ },
        [otpReq u code], .ok ()⟩ := by
    simp [otp2fa, hu, hb, hcheck, hck, Session.absorb, htk, hnid,
      Json.eqStr, freshHeaderSession]
  rw [hmain]
  refine ⟨rfl, rfl, rfl, rfl, rfl, rfl, rfl, ?_⟩
  intro h
  have hsid := congrArg Session.sid h
  simp at hsid

/-- Witness for C5 at the PendingOtp fixture and a successful second-factor
reply delivering cookies `T`/`R` and checksum `C`. -/
theorem C5_second_factor_success_witness :
    (otp2fa stPend 123456 rOtpOK).res = .ok () ∧
    (otp2fa stPend 123456 rOtpOK).st.token = some "T" ∧
    (otp2fa stPend 123456 rOtpOK).st.newids = some "R" ∧
    (otp2fa stPend 123456 rOtpOK).st.checksum = some (.str "C") ∧
    authStateOf (otp2fa stPend 123456 rOtpOK).st = .Authenticated ∧
    (otp2fa stPend 123456 rOtpOK).st.session.headers =
      [("hype_token", "T"), ("newids", "R"), ("App-Version", APP_VERSION)] ∧
    (otp2fa stPend 123456 rOtpOK).st.session.cookies = [] ∧
    (otp2fa stPend 123456 rOtpOK).st.session ≠ stPend.session :=
  C5_second_factor_success stPend "user" 123456 rOtpOK
    (.obj [("Check", .str "OK"), ("Checksum", .str "C")]) (.str "C") "T" "R"
    rfl rfl rfl rfl rfl rfl

/-- Claim C6, amended.  When the second-factor reply passes the `Check` test
and carries a `Checksum` but the transport's cookie jar lacks the `token`
cookie, `otp2fa` fails with an uncaught `KeyError` for `token` — not
`AuthenticationError` — and the checksum has already been stored; when the
`token` cookie is present but `newids` is absent, it fails with an uncaught
`KeyError` for `newids`, with both the checksum and the token already
stored. -/
theorem C6_missing_cookie_keyerror
    (st st' : HypeState) (u u' : String) (code code' : Int)
    (resp resp' : HttpResponse) (j j' ck ck' : Json) (tk : String)
    (hu : st.username = some u) (hb : resp.body = some j)
    (hcheck : j.lookup "Check" = some (.str "OK"))
    (hck : j.lookup "Checksum" = some ck)
    (hmiss : (mergeCookies st.session.cookies resp.cookies).lookup "token" = none)
    (hu' : st'.username = some u') (hb' : resp'.body = some j')
    (hcheck' : j'.lookup "Check" = some (.str "OK"))
    (hck' : j'.lookup "Checksum" = some ck')
    (htk' : (mergeCookies st'.session.cookies resp'.cookies).lookup "token" = some tk)
    (hmiss' : (mergeCookies st'.session.cookies resp'.cookies).lookup "newids" = none) :
    ((otp2fa st code resp).res = .error (.KeyError "token") ∧
     (otp2fa st code resp).st.checksum = some ck) ∧
    ((otp2fa st' code' resp').res = .error (.KeyError "newids") ∧
     (otp2fa st' code' resp').st.checksum = some ck' ∧
     (otp2fa st' code' resp').st.token = some tk) := by
  constructor
  · constructor <;>
      simp [otp2fa, hu, hb, hcheck, hck, Session.absorb, hmiss, Json.eqStr]
  · refine ⟨?_, ?_, ?_⟩ <;>
      simp [otp2fa, hu', hb', hcheck', hck', Session.absorb, htk', hmiss', Json.eqStr]

/-- Witness for C6 at the PendingOtp fixture, with the token-less and the
newids-less second-factor replies. -/
theorem C6_missing_cookie_keyerror_witness :
    ((otp2fa stPend 123456 rOtpNoToken).res = .error (.KeyError "token") ∧
     (otp2fa stPend 123456 rOtpNoToken).st.checksum = some (.str "C")) ∧
    ((otp2fa stPend 654321 rOtpNoNewids).res = .error (.KeyError "newids") ∧
     (otp2fa stPend 654321 rOtpNoNewids).st.checksum = some (.str "C") ∧
     (otp2fa stPend 654321 rOtpNoNewids).st.token = some "T") :=
  C6_missing_cookie_keyerror stPend stPend "user" "user" 123456 654321
    rOtpNoToken rOtpNoNewids
    (.obj [("Check", .str "OK"), ("Checksum", .str "C")])
    (.obj [("Check", .str "OK"), ("Checksum", .str "C")])
    (.str "C") (.str "C") "T"
    rfl rfl rfl rfl rfl rfl rfl rfl rfl rfl rfl

/-- Claim C6, counterexample to the claim as stated: in PendingOtp, a
successful second-factor reply whose jar lacks the `token` cookie makes
`otp2fa` fail with `KeyError "token"` — a different exception class from the
claimed `AuthenticationError` — and the checksum is already mutated. -/
theorem C6_keyerror_not_autherror :
    (otp2fa stPend 123456 rOtpNoToken).res = .error (.KeyError "token") ∧
    (otp2fa stPend 123456 rOtpNoToken).st.checksum = some (.str "C") := ⟨rfl, rfl⟩

/-- Claim C7, amended.  During `login`, an unparseable backend reply at the
first-factor step fails with `AuthenticationError` (wrapping the parse
failure), but an unparseable reply at the device-enrollment step fails with
`RequestException` — the generic transport error, not wrapped as
`AuthenticationError`. -/
theorem C7_malformed_login_responses (fromisoformat : String → Option PyDate)
    (st st' : HypeState) (u p u' p' : String)
    (bd bd' : BirthdateArg) (dob dob' : Option String)
    (r1 r1' r2 r2' : HttpResponse) (j1 : Json)
    (hd : loginDob fromisoformat bd = .ok dob)
    (h1 : r1.body = none)
    (hd' : loginDob fromisoformat bd' = .ok dob')
    (hb' : r1'.body = some j1)
    (hchk' : j1.lookup "Check" = some (.str "OK"))
    (h2 : r2'.body = none) :
    (login fromisoformat st u p bd r1 r2).res =
      .error (.AuthenticationError "Failed to parse response for login request") ∧
    (login fromisoformat st' u' p' bd' r1' r2').res =
      .error (.RequestException "Failed to parse response for bioToken request") := by
  constructor
  · simp [login, hd, h1]
  · simp [login, hd', hb', hchk', Json.eqStr, enrollBioCheck, h2]

/-- Witness for C7 at a fresh client: an unparseable first-factor reply, and
a passing first factor followed by an unparseable enrollment reply. -/
theorem C7_malformed_login_responses_witness :
    (login isoDateOnly stInit "u" "p" .noneVal rUnparseable rEnrollOK).res =
      .error (.AuthenticationError "Failed to parse response for login request") ∧
    (login isoDateOnly stInit "u" "p" .noneVal rCheckOK rUnparseable).res =
      .error (.RequestException "Failed to parse response for bioToken request") :=
  C7_malformed_login_responses isoDateOnly stInit stInit "u" "p" "u" "p"
    .noneVal .noneVal none none rUnparseable rCheckOK rEnrollOK rUnparseable
    (.obj [("Check", .str "OK")]) rfl rfl rfl rfl rfl rfl

/-- Claim C7, counterexample to the claim as stated: a malformed response at
the device-enrollment sub-step of `login` fails with `RequestException`, not
with a `MalformedResponse` wrapped as `AuthenticationError`. -/
theorem C7_enrollment_step_not_wrapped :
    (login isoDateOnly stInit "u" "p" .noneVal rCheckOK rUnparseable).res =
      .error (.RequestException "Failed to parse response for bioToken request") := rfl

/-- `_api_request` on an envelope whose code is none of `"200"`, `"401"`,
`"007"`: `RequestException` carrying the code and description verbatim. -/
theorem api_request_backend_error (st : HypeState) (url : String)
    (resp : HttpResponse) (j : Json) (c dsc : String)
    (hb : resp.body = some j)
    (hrc : j.lookup "responseCode" = some (.str c))
    (h200 : c ≠ "200") (h401 : c ≠ "401") (h007 : c ≠ "007")
    (hdsc : j.lookup "responseDescr" = some (.str dsc)) :
    (api_request st url resp).res =
      .error (.RequestException ("Server returned response " ++ c ++ ": " ++ dsc)) := by
  simp [api_request, hb, hrc, hdsc, Json.eqStr, h200, h401, h007, pyStr]

/-- `_api_request` on a `"200"` envelope returns the `data` field as is. -/
theorem api_request_success (st : HypeState) (url : String)
    (resp : HttpResponse) (j d : Json)
    (hb : resp.body = some j)
    (hrc : j.lookup "responseCode" = some (.str "200"))
    (hd : j.lookup "data" = some d) :
    (api_request st url resp).res = .ok d := by
  simp [api_request, hb, hrc, hd, Json.eqStr]

/-- Claim C9, confirmed.  For every data call on an authenticated client: a
decoded envelope whose code is neither `"200"` nor `"401"` nor `"007"` fails
with the backend-error exception carrying the envelope's code and description
verbatim in its message, and a `"200"` envelope returns the envelope's `data`
field unmodified. -/
theorem C9_backend_code_dispatch
    (st st' : HypeState) (resp resp' : HttpResponse) (lim lim' : Option Int)
    (tok tok' : String) (j j' : Json) (c dsc : String) (d : Json)
    (htok : st.token = some tok)
    (hb : resp.body = some j)
    (hrc : j.lookup "responseCode" = some (.str c))
    (h200 : c ≠ "200") (h401 : c ≠ "401") (h007 : c ≠ "007")
    (hdsc : j.lookup "responseDescr" = some (.str dsc))
    (htok' : st'.token = some tok')
    (hb' : resp'.body = some j')
    (hrc' : j'.lookup "responseCode" = some (.str "200"))
    (hd' : j'.lookup "data" = some d) :
    (∀ out ∈ dataCalls st lim resp,
      out.res = .error (.RequestException
        ("Server returned response " ++ c ++ ": " ++ dsc))) ∧
    (∀ out ∈ dataCalls st' lim' resp', out.res = .ok d) := by
  have hpass : loginrequired_passes st = true := by
    simp [loginrequired_passes, htok]
  have hpass' : loginrequired_passes st' = true := by
    simp [loginrequired_passes, htok']
  constructor
  · intro out hout
    simp only [dataCalls, List.mem_cons, List.not_mem_nil, or_false] at hout
    rcases hout with h | h | h | h <;> subst h <;>
      simp [get_profile, get_balance, get_card, get_movements, hpass,
        api_request_backend_error st _ resp j c dsc hb hrc h200 h401 h007 hdsc]
  · intro out hout
    simp only [dataCalls, List.mem_cons, List.not_mem_nil, or_false] at hout
    rcases hout with h | h | h | h <;> subst h <;>
      simp [get_profile, get_balance, get_card, get_movements, hpass',
        api_request_success st' _ resp' j' d hb' hrc' hd']

/-- Witness for C9 at the authenticated fixture: the `"094"` failure reply
and the `"200"` reply with payload `"D"`. -/
theorem C9_backend_code_dispatch_witness :
    (get_profile stAuth rBackendErr).res = .error (.RequestException
      ("Server returned response " ++ "094" ++ ": " ++ "Generic failure")) ∧
    (get_balance stAuth rBackendErr).res = .error (.RequestException
      ("Server returned response " ++ "094" ++ ": " ++ "Generic failure")) ∧
    (get_card stAuth rBackendErr).res = .error (.RequestException
      ("Server returned response " ++ "094" ++ ": " ++ "Generic failure")) ∧
    (get_movements stAuth (some 50) rBackendErr).res = .error (.RequestException
      ("Server returned response " ++ "094" ++ ": " ++ "Generic failure")) ∧
    (get_profile stAuth r200).res = .ok (.str "D") ∧
    (get_balance stAuth r200).res = .ok (.str "D") ∧
    (get_card stAuth r200).res = .ok (.str "D") ∧
    (get_movements stAuth (some 50) r200).res = .ok (.str "D") := by
  have h := C9_backend_code_dispatch stAuth stAuth rBackendErr r200 (some 50) (some 50)
    "T0" "T0"
    (.obj [("responseCode", .str "094"), ("responseDescr", .str "Generic failure")])
    (.obj [("responseCode", .str "200"), ("data", .str "D")])
    "094" "Generic failure" (.str "D")
    rfl rfl rfl (by decide) (by decide) (by decide) rfl rfl rfl rfl rfl
  exact ⟨h.1 _ (by simp [dataCalls]), h.1 _ (by simp [dataCalls]),
    h.1 _ (by simp [dataCalls]), h.1 _ (by simp [dataCalls]),
    h.2 _ (by simp [dataCalls]), h.2 _ (by simp [dataCalls]),
    h.2 _ (by simp [dataCalls]), h.2 _ (by simp [dataCalls])⟩

/-- For every run of `login`, either it succeeds or the stored
EnrollmentTicket `bin`, identifier, token and checksum are all unchanged
(failing runs mutate nothing but the session's cookie jar). -/
theorem login_state_cases (fromisoformat : String → Option PyDate)
    (st : HypeState) (u p : String) (bd : BirthdateArg)
    (r1 r2 : HttpResponse) :
    (login fromisoformat st u p bd r1 r2).res = .ok () ∨
    ((login fromisoformat st u p bd r1 r2).st.bin = st.bin ∧
     (login fromisoformat st u p bd r1 r2).st.username = st.username ∧
     (login fromisoformat st u p bd r1 r2).st.token = st.token ∧
     (login fromisoformat st u p bd r1 r2).st.checksum = st.checksum) := by
  unfold login
  repeat
    first
    | (left; exact rfl)
    | (right; exact ⟨rfl, rfl, rfl, rfl⟩)
    | split

/-- `authStateOf` is determined by `username` and `token` alone. -/
theorem authStateOf_congr (s1 s2 : HypeState) (hu : s1.username = s2.username)
    (ht : s1.token = s2.token) : authStateOf s1 = authStateOf s2 := by
  unfold authStateOf
  rw [hu, ht]

/-- Claim C10, confirmed.  `login` is atomic on failure: whenever it fails
with any error — at birthdate validation, the first-factor step, or the
enrollment step — the stored EnrollmentTicket `bin` and identifier
`username` (and `token` and `checksum`) keep their pre-call values, and the
derived AuthState is exactly the pre-call one. -/
theorem C10_login_atomic_on_failure (fromisoformat : String → Option PyDate)
    (st : HypeState) (u p : String)
    (bd : BirthdateArg) (r1 r2 : HttpResponse) (e : PyError)
    (h : (login fromisoformat st u p bd r1 r2).res = .error e) :
    (login fromisoformat st u p bd r1 r2).st.bin = st.bin ∧
    (login fromisoformat st u p bd r1 r2).st.username = st.username ∧
    (login fromisoformat st u p bd r1 r2).st.token = st.token ∧
    (login fromisoformat st u p bd r1 r2).st.checksum = st.checksum ∧
    authStateOf (login fromisoformat st u p bd r1 r2).st = authStateOf st := by
  rcases login_state_cases fromisoformat st u p bd r1 r2 with hok | ⟨hb, hu, ht, hc⟩
  · rw [hok] at h
    exact absurd h (by simp)
  · exact ⟨hb, hu, ht, hc, authStateOf_congr _ _ hu ht⟩

/-- Witness for C10: a `login` on a fresh client that fails at the
enrollment step leaves `bin`, `username`, `token`, `checksum` and the derived
state untouched. -/
theorem C10_login_atomic_on_failure_witness :
    (login isoDateOnly stInit "u" "p" .noneVal rCheckOK rUnparseable).st.bin
      = stInit.bin ∧
    (login isoDateOnly stInit "u" "p" .noneVal rCheckOK rUnparseable).st.username
      = stInit.username ∧
    (login isoDateOnly stInit "u" "p" .noneVal rCheckOK rUnparseable).st.token
      = stInit.token ∧
    (login isoDateOnly stInit "u" "p" .noneVal rCheckOK rUnparseable).st.checksum
      = stInit.checksum ∧
    authStateOf (login isoDateOnly stInit "u" "p" .noneVal rCheckOK rUnparseable).st
      = authStateOf stInit :=
  C10_login_atomic_on_failure isoDateOnly stInit "u" "p" .noneVal rCheckOK
    rUnparseable
    (.RequestException "Failed to parse response for bioToken request") rfl

end HypeAPI
